import Mathlib

/-!
# OpenSLES audio driver (`fluid_opensles.c`)

A shallow embedding of the driver in
`android/src/main/jni/fluidsynth/src/drivers/fluid_opensles.c`:
the pacing clock of the pull loop, the push-mode completion handler, the pull
loop itself, construction and teardown.

Conventions of the embedding.

* C `int` and `long` values are integers; every arithmetic operation of the
  source is followed by the wrap of its C type (`wrapInt`, 32 bits; `wrapLong`,
  64 bits as on LP64 Android).
* A pointer is an `Option`: `none` is `NULL`, `some xs` an allocated block with
  contents `xs`.
* `float` samples are an abstract type `F`: the driver only moves them.
* Calls into the platform (OpenSL ES, allocator, threads, clock, synthesizer)
  are answered by an explicit environment, and every call with an effect is
  recorded in a trace of `Event`s, in program order. The event of
  `usleep (time_delta)` carries the value `usleep` receives, the `long` argument
  converted to its parameter type `useconds_t` (32 bits, unsigned); the event of
  `Enqueue` carries the value of the byte-length expression in its type `size_t`.
-/

namespace FluidOpenSLES

/-! ## Machine integers -/

/-- Number of values of a 32-bit C `int`. -/
def INT_MOD : Int := 4294967296

/-- Number of values of a 64-bit C `long`. -/
def LONG_MOD : Int := 18446744073709551616

/-- Number of values of a 64-bit `size_t`. -/
def SIZE_MOD : Int := 18446744073709551616

/-- Number of values of `useconds_t`, the 32-bit unsigned parameter type of
`usleep`. -/
def USECONDS_MOD : Int := 4294967296

/-- Conversion of a `long` to `useconds_t`, as at the call `usleep (time_delta)`:
reduction modulo `2^32`. -/
def toUseconds (x : Int) : Int := x % USECONDS_MOD

/-- Two's-complement wrap of an integer to a 32-bit `int`. -/
def wrapInt (x : Int) : Int := (x + 2147483648) % INT_MOD - 2147483648

/-- Two's-complement wrap of an integer to a 64-bit `long`. -/
def wrapLong (x : Int) : Int :=
  (x + 9223372036854775808) % LONG_MOD - 9223372036854775808

/-- The value is representable as a 32-bit `int`. -/
def inInt (x : Int) : Prop := -2147483648 ≤ x ∧ x ≤ 2147483647

/-- The value is representable as a 64-bit `long`. -/
def inLong (x : Int) : Prop :=
  -9223372036854775808 ≤ x ∧ x ≤ 9223372036854775807

instance (x : Int) : Decidable (inInt x) := by unfold inInt; infer_instance

instance (x : Int) : Decidable (inLong x) := by unfold inLong; infer_instance

/-! ## Data model -/

/-- The macro `NUM_CHANNELS`. -/
def NUM_CHANNELS : Int := 2

/-- An OpenSL ES object or interface, a thread, or the synthesizer: only its
identity matters. -/
abbrev Handle := Nat

/-- The type `fluid_audio_func_t` of a split producer, as the handler calls it:
`(*callback)(data, len, 0, NULL, 2, out)` with `out = [left, right]`. It is
given the context, the frame count and the two scratch blocks and leaves the
two scratch blocks. -/
abbrev fluid_audio_func_t (F : Type) :=
  Option Handle → Int → List F → List F → List F × List F

/-- The structure `fluid_opensles_audio_driver_t` (the embedded
`fluid_audio_driver_t` header carries no state of this file). `sample_rate` is
a `double` in the source; the embedding covers the integral rates. -/
structure fluid_opensles_audio_driver_t (F : Type) where
  engine : Option Handle := none
  output_mix_object : Option Handle := none
  audio_player : Option Handle := none
  audio_player_interface : Option Handle := none
  player_buffer_queue_interface : Option Handle := none
  data : Option Handle := none
  buffer_size : Int := 0
  is_sample_format_float : Int := 0
  use_callback_mode : Int := 0
  short_buffer : Option (List Int) := none
  short_callback_buffer_l : Option (List Int) := none
  short_callback_buffer_r : Option (List Int) := none
  float_buffer : Option (List F) := none
  float_callback_buffer_l : Option (List F) := none
  float_callback_buffer_r : Option (List F) := none
  callback : Option (fluid_audio_func_t F) := none
  thread : Option Handle := none
  cont : Int := 0
  next_expected_enqueue_time : Int := 0
  sample_rate : Nat := 0

/-- Diagnostics passed to `FLUID_LOG`. -/
inductive LogMsg where
  | out_of_memory
  | failed_to_create_connection
  | callback_not_supported_16bits
  | using_opensles_driver
  deriving DecidableEq, Repr

/-- Everything the driver owns: the structure itself, platform objects, the
worker thread and the buffers, named after the field (or local) holding it. -/
inductive Resource where
  | dev
  | engine
  | output_mix_object
  | audio_player
  | thread
  | short_buffer
  | short_callback_buffer_l
  | short_callback_buffer_r
  | float_buffer
  | float_callback_buffer_l
  | float_callback_buffer_r
  | run_short_buf
  | run_float_buf
  deriving DecidableEq, Repr

/-- Effects of the driver on its environment, recorded in program order. -/
inductive Event (F : Type) where
  /-- A platform object was created, a thread spawned or a block allocated. -/
  | acquire (r : Resource)
  /-- The call `Destroy` on a platform object. -/
  | destroy (r : Resource)
  /-- The call `FLUID_FREE` of a block or of the driver structure. -/
  | free (r : Resource)
  /-- The store `dev->cont = 0`. -/
  | clear_cont
  /-- The call `fluid_thread_join (dev->thread)`. -/
  | join
  /-- The call `FLUID_LOG`. -/
  | log (m : LogMsg)
  /-- The call `RegisterCallback`. -/
  | register_callback
  /-- The call `SetCallbackEventsMask`. -/
  | set_callback_events_mask
  /-- The call `SetPlayState (SL_PLAYSTATE_PLAYING)`. -/
  | set_play_state
  /-- The call `usleep`, with the number of microseconds it receives: its
  `long` argument converted to `useconds_t`. -/
  | usleep (us : Int)
  /-- The split producer `(*dev->callback)` was invoked for `len` frames. -/
  | callback (len : Int)
  /-- The call `fluid_synth_write_float` for `len` frames. -/
  | synth_write_float (len : Int)
  /-- The call `fluid_synth_write_s16` for `len` frames. -/
  | synth_write_s16 (len : Int)
  /-- The call `Enqueue` of a float block with its byte length. -/
  | enqueue_float (buf : Option (List F)) (bytes : Int)
  /-- The call `Enqueue` of an int16 block with its byte length. -/
  | enqueue_short (buf : Option (List Int)) (bytes : Int)

/-! ## Pacing clock -/

/-- The local `wait_in_theory` of `fluid_opensles_adjust_latency`:
`1000000 * dev->buffer_size / dev->sample_rate`. The product is an `int`
product; it is then divided by the `double` rate and the quotient converted to
`long`, that is, truncated toward zero. For an integral rate and a numerator
below `2^31` in absolute value the rounded `double` quotient never reaches the
next integer, so its truncation is the truncating integer quotient. -/
def wait_in_theory (buffer_size : Int) (sample_rate : Nat) : Int :=
  Int.tdiv (wrapInt (1000000 * buffer_size)) (sample_rate : Int)

/-- The function `fluid_opensles_adjust_latency`, given the value
`current_time` it computes from `clock_gettime`. Returns the driver and the
trace, which holds the call `usleep (time_delta)` when it sleeps and is empty
otherwise. -/
def fluid_opensles_adjust_latency {F : Type} (current_time : Int)
    (dev : fluid_opensles_audio_driver_t F) :
    fluid_opensles_audio_driver_t F × List (Event F) :=
  let wait := wait_in_theory dev.buffer_size dev.sample_rate
  let time_delta : Int :=
    if dev.next_expected_enqueue_time = 0 then 0
    else wrapLong (dev.next_expected_enqueue_time - current_time)
  let dev1 : fluid_opensles_audio_driver_t F :=
    if time_delta = 0 then
      { dev with next_expected_enqueue_time := wrapLong (current_time + wait) }
    else
      { dev with next_expected_enqueue_time :=
          wrapLong (dev.next_expected_enqueue_time + wait) }
  if time_delta > 0 then (dev1, [Event.usleep (toUseconds time_delta)]) else (dev1, [])

/-! ## Push-mode completion handler -/

/-- The synthesizer entry points used as direct producer. Each is given the
context `dev->data`, the frame count and the interleaved block and leaves the
block. -/
structure Synth (F : Type) where
  fluid_synth_write_float : Option Handle → Int → List F → List F
  fluid_synth_write_s16 : Option Handle → Int → List Int → List Int

/-- The byte length handed to `Enqueue` by the handler and the pull loop,
`buffer_size * sizeof (T) * NUM_CHANNELS`: a product in `size_t`. -/
def enqueue_bytes (buffer_size : Int) (sizeof : Int) : Int :=
  (buffer_size * sizeof * NUM_CHANNELS) % SIZE_MOD

/-- The interleaving loop of `fluid_opensles_callback`,
`for (i = 0, k = 0; i < buffer_size; i++) { float_buf[k++] = left[i];
float_buf[k++] = right[i]; }`, with `n` the iterations that remain. An access
outside a block is undefined behaviour, and so is an increment of the `int`
counter `k` beyond `INT_MAX`: `none`. (The counter `i` stays below
`buffer_size`, an `int`.) -/
def interleave {F : Type} (left right : List F) :
    Nat → Nat → Nat → List F → Option (List F)
  | 0, _, _, float_buf => some float_buf
  | n + 1, i, k, float_buf =>
    match left[i]?, right[i]? with
    | some l, some r =>
      if k + 1 < float_buf.length ∧ k + 2 ≤ 2147483647 then
        interleave left right n (i + 1) (k + 2)
          ((float_buf.set k l).set (k + 1) r)
      else none
    | _, _ => none

/-- The production step of `fluid_opensles_callback` (the outer
`if (dev->callback) ... else ...`). `none` is undefined behaviour: a `NULL`
block dereferenced by the interleaving loop or handed to the synthesizer, or an
access outside a block. -/
def callback_produce {F : Type} (synth : Synth F)
    (dev : fluid_opensles_audio_driver_t F) :
    Option (fluid_opensles_audio_driver_t F × List (Event F)) :=
  let short_buf := dev.short_buffer
  let float_buf := dev.float_buffer
  let buffer_size := dev.buffer_size
  match dev.callback with
  | some cb =>
    if dev.is_sample_format_float ≠ 0 then
      match dev.float_callback_buffer_l, dev.float_callback_buffer_r, float_buf with
      | some left0, some right0, some out =>
        let lr := cb dev.data buffer_size left0 right0
        match interleave lr.1 lr.2 buffer_size.toNat 0 0 out with
        | some out1 =>
          some ({ dev with
                    float_callback_buffer_l := some lr.1
                    float_callback_buffer_r := some lr.2
                    float_buffer := some out1 },
                [Event.callback buffer_size])
        | none => none
      | _, _, _ => none
    else
      some (dev, [Event.log LogMsg.callback_not_supported_16bits])
  | none =>
    if dev.is_sample_format_float ≠ 0 then
      match float_buf with
      | some out =>
        let out1 := synth.fluid_synth_write_float dev.data buffer_size out
        some ({ dev with float_buffer := some out1 },
              [Event.synth_write_float buffer_size])
      | none => none
    else
      match short_buf with
      | some out =>
        let out1 := synth.fluid_synth_write_s16 dev.data buffer_size out
        some ({ dev with short_buffer := some out1 },
              [Event.synth_write_s16 buffer_size])
      | none => none

/-- The function `fluid_opensles_callback`. `enqueue_result` is the `SLresult`
the platform returns from this invocation's `Enqueue`. -/
def fluid_opensles_callback {F : Type} (synth : Synth F) (enqueue_result : Nat)
    (dev : fluid_opensles_audio_driver_t F) :
    Option (fluid_opensles_audio_driver_t F × List (Event F)) :=
  let buffer_size := dev.buffer_size
  match callback_produce synth dev with
  | none => none
  | some (dev1, tr) =>
    let submit : Event F :=
      if dev1.is_sample_format_float ≠ 0 then
        Event.enqueue_float dev1.float_buffer (enqueue_bytes buffer_size 4)
      else
        Event.enqueue_short dev1.short_buffer (enqueue_bytes buffer_size 2)
    let result := enqueue_result
    if result ≠ 0 then
      /- Do not simply break at just one single insufficient buffer. Go on. -/
      some (dev1, tr ++ [submit])
    else
      some (dev1, tr ++ [submit])

/-! ## Pull loop -/

/-- What the worker thread meets while it runs. -/
structure RunEnv (F : Type) where
  /-- The synthesizer. -/
  synth : Synth F
  /-- The value `current_time` read by the `i`-th call of
  `fluid_opensles_adjust_latency`. -/
  clock : Nat → Int
  /-- Whether the teardown thread has stored `dev->cont = 0` by the time the
  loop head of iteration `i` reads the flag. -/
  stop_at : Nat → Bool
  /-- The `SLresult` of the `i`-th `Enqueue`. -/
  Enqueue : Nat → Nat
  /-- The answer to `FLUID_ARRAY(float, n)` for the local block. -/
  FLUID_ARRAY_float : Int → Option (List F)
  /-- The answer to `FLUID_ARRAY(short, n)` for the local block. -/
  FLUID_ARRAY_short : Int → Option (List Int)

/-- The driver together with the locals `short_buf` and `float_buf` of
`fluid_opensles_audio_run`. -/
structure RunState (F : Type) where
  dev : fluid_opensles_audio_driver_t F
  short_buf : Option (List Int)
  float_buf : Option (List F)

/-- One pass through the body of `while (dev->cont)` in
`fluid_opensles_audio_run`, the `i`-th. `none` is a `NULL` block handed to the
synthesizer. -/
def audio_run_iteration {F : Type} (env : RunEnv F) (i : Nat) (s : RunState F) :
    Option (RunState F × List (Event F)) :=
  let buffer_size := s.dev.buffer_size
  let paced := fluid_opensles_adjust_latency (env.clock i) s.dev
  let dev1 := paced.1
  let produced : Option (RunState F × List (Event F)) :=
    if dev1.is_sample_format_float ≠ 0 then
      match s.float_buf with
      | some out =>
        let out1 := env.synth.fluid_synth_write_float dev1.data buffer_size out
        some ({ s with dev := dev1, float_buf := some out1 },
              [Event.synth_write_float buffer_size])
      | none => none
    else
      match s.short_buf with
      | some out =>
        let out1 := env.synth.fluid_synth_write_s16 dev1.data buffer_size out
        some ({ s with dev := dev1, short_buf := some out1 },
              [Event.synth_write_s16 buffer_size])
      | none => none
  match produced with
  | none => none
  | some (s1, tr) =>
    let submit : Event F :=
      if dev1.is_sample_format_float ≠ 0 then
        Event.enqueue_float s1.float_buf (enqueue_bytes buffer_size 4)
      else
        Event.enqueue_short s1.short_buf (enqueue_bytes buffer_size 2)
    let result := env.Enqueue i
    if result ≠ 0 then
      /- Do not simply break at just one single insufficient buffer. Go on. -/
      some (s1, paced.2 ++ tr ++ [submit])
    else
      some (s1, paced.2 ++ tr ++ [submit])

/-- The loop `while (dev->cont) ...` of `fluid_opensles_audio_run` from
iteration `i` on. The flag is read at the loop head only; `fuel` bounds the
number of loop heads, and `none` is either fuel exhausted or undefined
behaviour in an iteration. -/
def audio_run_loop {F : Type} (env : RunEnv F) :
    Nat → Nat → RunState F → Option (RunState F × List (Event F))
  | 0, _, _ => none
  | fuel + 1, i, s =>
    let s0 : RunState F :=
      if env.stop_at i then { s with dev := { s.dev with cont := 0 } } else s
    if s0.dev.cont ≠ 0 then
      match audio_run_iteration env i s0 with
      | none => none
      | some (s1, tr1) =>
        match audio_run_loop env fuel (i + 1) s1 with
        | none => none
        | some (s2, tr2) => some (s2, tr1 ++ tr2)
    else some (s0, [])

/-- The function `fluid_opensles_audio_run`: the worker thread. -/
def fluid_opensles_audio_run {F : Type} (env : RunEnv F) (fuel : Nat)
    (dev : fluid_opensles_audio_driver_t F) :
    Option (fluid_opensles_audio_driver_t F × List (Event F)) :=
  let buffer_size := dev.buffer_size
  let float_buf : Option (List F) :=
    if dev.is_sample_format_float ≠ 0 then
      env.FLUID_ARRAY_float (wrapInt (buffer_size * NUM_CHANNELS))
    else none
  let short_buf : Option (List Int) :=
    if dev.is_sample_format_float ≠ 0 then none
    else env.FLUID_ARRAY_short (wrapInt (buffer_size * NUM_CHANNELS))
  if short_buf = none ∧ float_buf.isNone then
    some (dev, [Event.log LogMsg.out_of_memory])
  else
    let acquired : Event F :=
      if dev.is_sample_format_float ≠ 0 then Event.acquire Resource.run_float_buf
      else Event.acquire Resource.run_short_buf
    let entry : RunState F := { dev := dev, short_buf := short_buf, float_buf := float_buf }
    match audio_run_loop env fuel 0 entry with
    | none => none
    | some (s, tr) =>
      if s.dev.is_sample_format_float ≠ 0 then
        some (s.dev, acquired :: tr ++ [Event.free Resource.run_float_buf])
      else
        some (s.dev, acquired :: tr ++ [Event.free Resource.run_short_buf])

/-! ## Teardown -/

/-- The function `delete_fluid_opensles_audio_driver`: the effects it has, in
program order. The structure is gone afterwards, so nothing else is returned. -/
def delete_fluid_opensles_audio_driver {F : Type}
    (p : Option (fluid_opensles_audio_driver_t F)) : List (Event F) :=
  match p with
  | none => []
  | some dev =>
    [Event.clear_cont]
    ++ (if dev.use_callback_mode = 0 then
          (if dev.thread.isSome then [Event.join] else [])
        else [])
    ++ (if dev.audio_player.isSome then [Event.destroy Resource.audio_player] else [])
    ++ (if dev.output_mix_object.isSome then [Event.destroy Resource.output_mix_object]
        else [])
    ++ (if dev.engine.isSome then [Event.destroy Resource.engine] else [])
    ++ (if dev.use_callback_mode ≠ 0 then
          (if dev.is_sample_format_float ≠ 0 then
            (if dev.float_callback_buffer_l.isSome then
                [Event.free Resource.float_callback_buffer_l] else [])
            ++ (if dev.float_callback_buffer_r.isSome then
                [Event.free Resource.float_callback_buffer_r] else [])
            ++ (if dev.float_buffer.isSome then [Event.free Resource.float_buffer] else [])
          else
            (if dev.short_callback_buffer_l.isSome then
                [Event.free Resource.short_callback_buffer_l] else [])
            ++ (if dev.short_callback_buffer_r.isSome then
                [Event.free Resource.short_callback_buffer_r] else [])
            ++ (if dev.short_buffer.isSome then [Event.free Resource.short_buffer] else []))
        else [])
    ++ [Event.free Resource.dev]

/-! ## Construction -/

/-- The values `new_fluid_opensles_audio_driver2` reads from the settings:
`audio.period-size`, `synth.sample-rate`, `audio.realtime-prio`, the result of
`fluid_settings_str_equal (settings, "audio.sample-format", "float")` and
`audio.opensles.use-callback-mode`. -/
structure Settings where
  period_size : Int
  sample_rate : Nat
  realtime_prio : Int
  sample_format_is_float : Int
  use_callback_mode : Int

/-- The answers of the platform to the calls of the constructor. A call that
creates an object or looks up an interface answers `some h` when it succeeds
(result `0`, the object stored) and `none` when it fails (the destination stays
`NULL`); the other calls answer their `SLresult`. `FLUID_NEW` and `FLUID_ARRAY`
are the allocation macros of the library, one answer per allocation site. -/
structure Platform (F : Type) where
  FLUID_NEW_dev : Bool
  slCreateEngine : Option Handle
  engine_Realize : Nat
  engine_GetInterface : Option Handle
  CreateOutputMix : Option Handle
  output_mix_Realize : Nat
  CreateAudioPlayer : Option Handle
  audio_player_Realize : Nat
  GetInterface_PLAY : Option Handle
  GetInterface_BUFFERQUEUE : Option Handle
  FLUID_ARRAY_float_buffer : Int → Option (List F)
  FLUID_ARRAY_short_buffer : Int → Option (List Int)
  FLUID_ARRAY_float_callback_buffer_l : Int → Option (List F)
  FLUID_ARRAY_short_callback_buffer_l : Int → Option (List Int)
  FLUID_ARRAY_float_callback_buffer_r : Int → Option (List F)
  FLUID_ARRAY_short_callback_buffer_r : Int → Option (List Int)
  RegisterCallback : Nat
  Enqueue : Nat
  SetPlayState : Nat
  new_fluid_thread : Option Handle

/-- The event of an allocation: recorded when the block exists. -/
def acquired {F A : Type} (r : Resource) (block : Option A) : List (Event F) :=
  if block.isSome then [Event.acquire r] else []

/-- The label `error_recovery:` of the constructor. -/
def error_recovery {F : Type} (dev : fluid_opensles_audio_driver_t F)
    (tr : List (Event F)) :
    Option (fluid_opensles_audio_driver_t F) × List (Event F) :=
  (none, tr ++ delete_fluid_opensles_audio_driver (some dev))

/-- The tail of the callback-mode branch of the constructor, from
`RegisterCallback` on. -/
def new_driver2_register {F : Type} (p : Platform F)
    (dev : fluid_opensles_audio_driver_t F) (tr : List (Event F)) :
    Option (fluid_opensles_audio_driver_t F) × List (Event F) :=
  let tr1 := tr ++ [Event.register_callback]
  if p.RegisterCallback ≠ 0 then error_recovery dev tr1
  else
    let prime : Event F :=
      if dev.is_sample_format_float ≠ 0 then
        Event.enqueue_float dev.float_buffer
          ((wrapInt (dev.buffer_size * NUM_CHANNELS) * 4) % SIZE_MOD)
      else
        Event.enqueue_short dev.short_buffer
          ((wrapInt (dev.buffer_size * NUM_CHANNELS) * 2) % SIZE_MOD)
    let tr2 := tr1 ++ [prime, Event.set_callback_events_mask, Event.set_play_state]
    if p.SetPlayState ≠ 0 then error_recovery dev tr2
    else (some dev, tr2 ++ [Event.log LogMsg.using_opensles_driver])

/-- The scratch-block part of the callback-mode branch, the body of
`if (dev->callback)`, followed by the tail. -/
def new_driver2_scratch {F : Type} (p : Platform F)
    (dev : fluid_opensles_audio_driver_t F) (tr : List (Event F)) :
    Option (fluid_opensles_audio_driver_t F) × List (Event F) :=
  let dev1 : fluid_opensles_audio_driver_t F :=
    if dev.is_sample_format_float ≠ 0 then
      { dev with float_callback_buffer_l :=
                   p.FLUID_ARRAY_float_callback_buffer_l dev.buffer_size }
    else
      { dev with short_callback_buffer_l :=
                   p.FLUID_ARRAY_short_callback_buffer_l dev.buffer_size }
  let tr1 : List (Event F) :=
    if dev.is_sample_format_float ≠ 0 then
      tr ++ acquired Resource.float_callback_buffer_l dev1.float_callback_buffer_l
    else
      tr ++ acquired Resource.short_callback_buffer_l dev1.short_callback_buffer_l
  if dev1.float_callback_buffer_l.isNone ∧ dev1.short_callback_buffer_l.isNone then
    (none, tr1 ++ [Event.log LogMsg.out_of_memory])
  else
    let dev2 : fluid_opensles_audio_driver_t F :=
      if dev1.is_sample_format_float ≠ 0 then
        { dev1 with float_callback_buffer_r :=
                      p.FLUID_ARRAY_float_callback_buffer_r dev1.buffer_size }
      else
        { dev1 with short_callback_buffer_r :=
                      p.FLUID_ARRAY_short_callback_buffer_r dev1.buffer_size }
    let tr2 : List (Event F) :=
      if dev1.is_sample_format_float ≠ 0 then
        tr1 ++ acquired Resource.float_callback_buffer_r dev2.float_callback_buffer_r
      else
        tr1 ++ acquired Resource.short_callback_buffer_r dev2.short_callback_buffer_r
    if dev2.float_callback_buffer_r.isNone ∧ dev2.short_callback_buffer_r.isNone then
      (none, tr2 ++ [Event.log LogMsg.out_of_memory])
    else new_driver2_register p dev2 tr2

/-- The branch `if (dev->use_callback_mode)` of the constructor. -/
def new_driver2_callback_mode {F : Type} (p : Platform F)
    (dev : fluid_opensles_audio_driver_t F) (tr : List (Event F)) :
    Option (fluid_opensles_audio_driver_t F) × List (Event F) :=
  let dev1 : fluid_opensles_audio_driver_t F :=
    if dev.is_sample_format_float ≠ 0 then
      { dev with float_buffer :=
                   p.FLUID_ARRAY_float_buffer (wrapInt (dev.buffer_size * NUM_CHANNELS)) }
    else
      { dev with short_buffer :=
                   p.FLUID_ARRAY_short_buffer (wrapInt (dev.buffer_size * NUM_CHANNELS)) }
  let tr1 : List (Event F) :=
    if dev.is_sample_format_float ≠ 0 then
      tr ++ acquired Resource.float_buffer dev1.float_buffer
    else
      tr ++ acquired Resource.short_buffer dev1.short_buffer
  if dev1.float_buffer.isNone ∧ dev1.short_buffer.isNone then
    (none, tr1 ++ [Event.log LogMsg.out_of_memory])
  else if dev1.callback.isSome then new_driver2_scratch p dev1 tr1
  else new_driver2_register p dev1 tr1

/-- The branch `else` (non-callback mode) of the constructor. -/
def new_driver2_thread_mode {F : Type} (p : Platform F)
    (dev : fluid_opensles_audio_driver_t F) (tr : List (Event F)) :
    Option (fluid_opensles_audio_driver_t F) × List (Event F) :=
  let tr1 := tr ++ [Event.set_play_state]
  if p.SetPlayState ≠ 0 then error_recovery dev tr1
  else
    match p.new_fluid_thread with
    | none => error_recovery dev tr1
    | some t =>
      (some { dev with thread := some t },
       tr1 ++ [Event.acquire Resource.thread, Event.log LogMsg.using_opensles_driver])

/-- The function `new_fluid_opensles_audio_driver2`: the driver it returns
(`none` is `NULL`) and the effects it has, in program order. -/
def new_fluid_opensles_audio_driver2 {F : Type} (p : Platform F) (settings : Settings)
    (func : fluid_audio_func_t F) (data : Option Handle) :
    Option (fluid_opensles_audio_driver_t F) × List (Event F) :=
  let synth := data
  if p.FLUID_NEW_dev = false then (none, [Event.log LogMsg.out_of_memory])
  else
    /- `FLUID_MEMSET (dev, 0, ...)`, then the fields taken from the settings. -/
    let dev : fluid_opensles_audio_driver_t F :=
      { data := synth
        use_callback_mode := settings.use_callback_mode
        is_sample_format_float := settings.sample_format_is_float
        buffer_size := settings.period_size
        sample_rate := settings.sample_rate
        cont := 1 }
    let tr : List (Event F) := [Event.acquire Resource.dev]
    match p.slCreateEngine with
    | none => error_recovery dev (tr ++ [Event.log LogMsg.failed_to_create_connection])
    | some e =>
      let dev := { dev with engine := some e }
      let tr := tr ++ [Event.acquire Resource.engine]
      if p.engine_Realize ≠ 0 then error_recovery dev tr
      else
        match p.engine_GetInterface with
        | none => error_recovery dev tr
        | some _engine_interface =>
          match p.CreateOutputMix with
          | none => error_recovery dev tr
          | some m =>
            let dev := { dev with output_mix_object := some m }
            let tr := tr ++ [Event.acquire Resource.output_mix_object]
            if p.output_mix_Realize ≠ 0 then error_recovery dev tr
            else
              match p.CreateAudioPlayer with
              | none => error_recovery dev tr
              | some a =>
                let dev := { dev with audio_player := some a }
                let tr := tr ++ [Event.acquire Resource.audio_player]
                if p.audio_player_Realize ≠ 0 then error_recovery dev tr
                else
                  match p.GetInterface_PLAY with
                  | none => error_recovery dev tr
                  | some play =>
                    let dev := { dev with audio_player_interface := some play }
                    match p.GetInterface_BUFFERQUEUE with
                    | none => error_recovery dev tr
                    | some q =>
                      let dev := { dev with player_buffer_queue_interface := some q }
                      if dev.use_callback_mode ≠ 0 then new_driver2_callback_mode p dev tr
                      else new_driver2_thread_mode p dev tr

/-- The function `new_fluid_opensles_audio_driver`, with `fluid_synth_process`
the function it casts to `fluid_audio_func_t`. -/
def new_fluid_opensles_audio_driver {F : Type} (p : Platform F) (settings : Settings)
    (fluid_synth_process : fluid_audio_func_t F) (synth : Option Handle) :
    Option (fluid_opensles_audio_driver_t F) × List (Event F) :=
  new_fluid_opensles_audio_driver2 p settings fluid_synth_process synth

/-! ## The handler invoked repeatedly -/

/-- Successive invocations of `fluid_opensles_callback` by the platform, one
per element of `results`, the result its `Enqueue` returns; the traces of the
invocations are kept apart. -/
def callback_chain {F : Type} (synth : Synth F) :
    List Nat → fluid_opensles_audio_driver_t F →
      Option (fluid_opensles_audio_driver_t F × List (List (Event F)))
  | [], dev => some (dev, [])
  | r :: results, dev =>
    match fluid_opensles_callback synth r dev with
    | none => none
    | some (dev1, t) =>
      match callback_chain synth results dev1 with
      | none => none
      | some (dev2, ts) => some (dev2, t :: ts)

/-! ## Vocabulary of the properties -/

/-- The ideal inter-buffer interval as the specification states it,
`frames_per_buffer × 1_000_000 / sample_rate` microseconds, truncated to an
integer. It is written from the specification, to be compared with
`wait_in_theory`, which is what the source computes. -/
def ideal_interval (frames_per_buffer : Int) (sample_rate : Nat) : Int :=
  Int.tdiv (frames_per_buffer * 1000000) (sample_rate : Int)

/-- The event is a submission: a call of `Enqueue`. -/
def Event.isEnqueue {F : Type} : Event F → Bool
  | Event.enqueue_float _ _ => true
  | Event.enqueue_short _ _ => true
  | _ => false

/-- The event is the invocation of a producer: the split producer or one of the
two synthesizer entry points. -/
def Event.isProduce {F : Type} : Event F → Bool
  | Event.callback _ => true
  | Event.synth_write_float _ => true
  | Event.synth_write_s16 _ => true
  | _ => false

/-- The event is a sleep. -/
def Event.isSleep {F : Type} : Event F → Bool
  | Event.usleep _ => true
  | _ => false

/-- The local block of the pull loop that matches the sample format exists, as
it does after the allocation check of `fluid_opensles_audio_run`. -/
def RunState.buffers_ok {F : Type} (s : RunState F) : Prop :=
  (s.dev.is_sample_format_float ≠ 0 → s.float_buf.isSome = true) ∧
  (s.dev.is_sample_format_float = 0 → s.short_buf.isSome = true)

/-! ## Concrete environments and drivers, for the instances -/

/-- A synthesizer that leaves the block as it is. -/
def idle_synth : Synth Nat :=
  { fluid_synth_write_float := fun _ _ b => b
    fluid_synth_write_s16 := fun _ _ b => b }

/-- A split producer that leaves `[1, 2, 3]` and `[4, 5, 6]`. -/
def ramp_producer : fluid_audio_func_t Nat := fun _ _ _ _ => ([1, 2, 3], [4, 5, 6])

/-- A push-mode float driver of 3 frames with a split producer. -/
def split_float_dev : fluid_opensles_audio_driver_t Nat :=
  { buffer_size := 3, is_sample_format_float := 1, use_callback_mode := 1, cont := 1,
    sample_rate := 44100, callback := some ramp_producer,
    float_callback_buffer_l := some [0, 0, 0], float_callback_buffer_r := some [0, 0, 0],
    float_buffer := some [0, 0, 0, 0, 0, 0] }

/-- A push-mode int16 driver of 3 frames with a split producer: the
unsupported configuration. -/
def split_short_dev : fluid_opensles_audio_driver_t Nat :=
  { buffer_size := 3, is_sample_format_float := 0, use_callback_mode := 1, cont := 1,
    sample_rate := 44100, callback := some ramp_producer,
    short_callback_buffer_l := some [0, 0, 0], short_callback_buffer_r := some [0, 0, 0],
    short_buffer := some [7, 7, 7, 7, 7, 7] }

/-- The worker of a float driver of 512 frames at 44100 Hz, before its first
iteration. -/
def steady_state : RunState Nat :=
  { dev := { buffer_size := 512, is_sample_format_float := 1, cont := 1,
             sample_rate := 44100 },
    short_buf := none, float_buf := some (List.replicate 1024 0) }

/-- A worker environment: the clock starts at 1000000 and advances by one
interval per call, teardown clears the flag before loop head `stop`, and every
other submission fails. -/
def steady_env (stop : Nat) : RunEnv Nat :=
  { synth := idle_synth
    clock := fun i => 1000000 + (i : Int) * wait_in_theory 512 44100
    stop_at := fun i => decide (stop ≤ i)
    Enqueue := fun i => i % 2
    FLUID_ARRAY_float := fun _ => some (List.replicate 1024 0)
    FLUID_ARRAY_short := fun _ => none }

/-- A float driver of 4096 frames at 44100 Hz whose next-expected timestamp is
`next`. -/
def large_dev (next : Int) : fluid_opensles_audio_driver_t Nat :=
  { buffer_size := 4096, is_sample_format_float := 1, cont := 1, sample_rate := 44100,
    next_expected_enqueue_time := next }

/-- The worker of a float driver of 4096 frames at 44100 Hz, before its first
iteration. -/
def large_state : RunState Nat :=
  { dev := large_dev 0, short_buf := none, float_buf := some (List.replicate 8192 0) }

/-- A worker environment for 4096 frames at 44100 Hz: the clock starts at
1000000 and advances by the ideal interval per call, and teardown clears the
flag before loop head `stop`. -/
def ideal_clock_env (stop : Nat) : RunEnv Nat :=
  { synth := idle_synth
    clock := fun i => 1000000 + (i : Int) * ideal_interval 4096 44100
    stop_at := fun i => decide (stop ≤ i)
    Enqueue := fun _ => 0
    FLUID_ARRAY_float := fun _ => some (List.replicate 8192 0)
    FLUID_ARRAY_short := fun _ => none }

/-- A platform on which every call succeeds. -/
def willing_platform : Platform Nat :=
  { FLUID_NEW_dev := true
    slCreateEngine := some 1
    engine_Realize := 0
    engine_GetInterface := some 2
    CreateOutputMix := some 3
    output_mix_Realize := 0
    CreateAudioPlayer := some 4
    audio_player_Realize := 0
    GetInterface_PLAY := some 5
    GetInterface_BUFFERQUEUE := some 6
    FLUID_ARRAY_float_buffer := fun n => some (List.replicate n.toNat 0)
    FLUID_ARRAY_short_buffer := fun n => some (List.replicate n.toNat 0)
    FLUID_ARRAY_float_callback_buffer_l := fun n => some (List.replicate n.toNat 0)
    FLUID_ARRAY_short_callback_buffer_l := fun n => some (List.replicate n.toNat 0)
    FLUID_ARRAY_float_callback_buffer_r := fun n => some (List.replicate n.toNat 0)
    FLUID_ARRAY_short_callback_buffer_r := fun n => some (List.replicate n.toNat 0)
    RegisterCallback := 0
    Enqueue := 0
    SetPlayState := 0
    new_fluid_thread := some 7 }

/-- The willing platform, out of memory when the float output block is
requested. -/
def oom_platform : Platform Nat :=
  { willing_platform with FLUID_ARRAY_float_buffer := fun _ => none }

/-- The willing platform, except that `RegisterCallback` fails. -/
def unregistering_platform : Platform Nat :=
  { willing_platform with RegisterCallback := 1 }

/-- Callback mode, float format, 512 frames at 44100 Hz. -/
def push_float_settings : Settings :=
  { period_size := 512, sample_rate := 44100, realtime_prio := 0,
    sample_format_is_float := 1, use_callback_mode := 1 }

/-- The driver the constructor builds on the willing platform from
`push_float_settings`. -/
def push_float_dev : fluid_opensles_audio_driver_t Nat :=
  { engine := some 1, output_mix_object := some 3, audio_player := some 4,
    audio_player_interface := some 5, player_buffer_queue_interface := some 6,
    data := some 9, buffer_size := 512, is_sample_format_float := 1,
    use_callback_mode := 1, float_buffer := some (List.replicate 1024 0),
    cont := 1, sample_rate := 44100 }

/-- The trace of that construction. -/
def push_float_trace : List (Event Nat) :=
  [Event.acquire Resource.dev, Event.acquire Resource.engine,
   Event.acquire Resource.output_mix_object, Event.acquire Resource.audio_player,
   Event.acquire Resource.float_buffer, Event.register_callback,
   Event.enqueue_float (some (List.replicate 1024 0)) 4096,
   Event.set_callback_events_mask, Event.set_play_state,
   Event.log LogMsg.using_opensles_driver]

/-! ## Facts about machine integers -/

theorem wrapLong_of_inLong {x : Int} (h : inLong x) : wrapLong x = x := by
  unfold inLong at h
  unfold wrapLong LONG_MOD
  omega

theorem wrapInt_of_inInt {x : Int} (h : inInt x) : wrapInt x = x := by
  unfold inInt at h
  unfold wrapInt INT_MOD
  omega

/-- A wrapped difference is zero exactly when the operands are congruent, and
then adding the same amount to either wraps to the same value. -/
theorem wrapLong_add_congr {a b w : Int} (h : wrapLong (a - b) = 0) :
    wrapLong (b + w) = wrapLong (a + w) := by
  unfold wrapLong LONG_MOD at *
  omega

/-! ## Pacing clock: what one call does -/

/-- The next-expected timestamp after a call with a prior timestamp. -/
theorem adjust_latency_next_of_prior {F : Type} (now : Int)
    (dev : fluid_opensles_audio_driver_t F)
    (hprior : dev.next_expected_enqueue_time ≠ 0) :
    (fluid_opensles_adjust_latency now dev).1.next_expected_enqueue_time
      = wrapLong (dev.next_expected_enqueue_time
          + wait_in_theory dev.buffer_size dev.sample_rate) := by
  unfold fluid_opensles_adjust_latency
  simp only [hprior, if_false]
  by_cases hd : wrapLong (dev.next_expected_enqueue_time - now) = 0
  · have := wrapLong_add_congr (w := wait_in_theory dev.buffer_size dev.sample_rate) hd
    split <;> simp [hd, this]
  · split <;> simp [hd]

/-- The next-expected timestamp is the only field a call changes. -/
theorem adjust_latency_frame {F : Type} (now : Int)
    (dev : fluid_opensles_audio_driver_t F) :
    (fluid_opensles_adjust_latency now dev).1
      = { dev with next_expected_enqueue_time :=
            (fluid_opensles_adjust_latency now dev).1.next_expected_enqueue_time } := by
  unfold fluid_opensles_adjust_latency
  simp only
  split_ifs <;> rfl

/-- Below the overflow of the `int` product the interval is the ideal one. -/
theorem wait_in_theory_exact_of_small (buffer_size : Int) (sample_rate : Nat)
    (hpos : 0 < buffer_size) (hsmall : buffer_size ≤ 2147) :
    wait_in_theory buffer_size sample_rate
      = Int.tdiv (buffer_size * 1000000) (sample_rate : Int) := by
  unfold wait_in_theory
  rw [wrapInt_of_inInt (by unfold inInt; omega), Int.mul_comm]

/-- C2, evaluated where it fails: with 4096 frames per buffer at 44100 Hz the
`int` product `1000000 * 4096` wraps to `-198967296`, and `wait_in_theory` is
`-4511` microseconds, not the ideal `4096 * 1000000 / 44100 = 92879`. -/
theorem wait_in_theory_wraps_at_4096 :
    wrapInt (1000000 * 4096) = -198967296 ∧
    wait_in_theory 4096 44100 = -4511 ∧
    Int.tdiv (4096 * 1000000) 44100 = 92879 ∧
    wait_in_theory 4096 44100 ≠ Int.tdiv (4096 * 1000000) 44100 := by
  decide

/-- Below the overflow of the `int` product the interval the source computes
is the ideal interval. -/
theorem wait_in_theory_eq_ideal_of_small (buffer_size : Int) (sample_rate : Nat)
    (hpos : 0 < buffer_size) (hsmall : buffer_size ≤ 2147) :
    wait_in_theory buffer_size sample_rate = ideal_interval buffer_size sample_rate :=
  wait_in_theory_exact_of_small buffer_size sample_rate hpos hsmall

/-- In a call with a prior next-expected timestamp, whatever the clock reads,
the new timestamp is the old one plus the interval the source computes (the sum
being representable as a `long`): the schedule is never re-anchored. -/
theorem adjust_latency_adds_wait_in_theory {F : Type} (now : Int)
    (dev : fluid_opensles_audio_driver_t F)
    (hprior : dev.next_expected_enqueue_time ≠ 0)
    (hrange : inLong (dev.next_expected_enqueue_time
                + wait_in_theory dev.buffer_size dev.sample_rate)) :
    (fluid_opensles_adjust_latency now dev).1.next_expected_enqueue_time
      = dev.next_expected_enqueue_time
          + wait_in_theory dev.buffer_size dev.sample_rate := by
  rw [adjust_latency_next_of_prior now dev hprior, wrapLong_of_inLong hrange]

/-- Below the overflow of the `int` product (1 to 2147 frames) a call with a
prior timestamp advances it by exactly the ideal interval, whatever the clock
reads. -/
theorem adjust_latency_adds_ideal_of_small {F : Type} (now : Int)
    (dev : fluid_opensles_audio_driver_t F)
    (hpos : 0 < dev.buffer_size) (hsmall : dev.buffer_size ≤ 2147)
    (hprior : dev.next_expected_enqueue_time ≠ 0)
    (hrange : inLong (dev.next_expected_enqueue_time
                + ideal_interval dev.buffer_size dev.sample_rate)) :
    (fluid_opensles_adjust_latency now dev).1.next_expected_enqueue_time
      = dev.next_expected_enqueue_time
          + ideal_interval dev.buffer_size dev.sample_rate := by
  rw [← wait_in_theory_eq_ideal_of_small _ _ hpos hsmall] at hrange ⊢
  exact adjust_latency_adds_wait_in_theory now dev hprior hrange

/-- C3, evaluated where it fails: with 4096 frames per buffer at 44100 Hz and
a prior next-expected timestamp of 1000000, a call moves the timestamp to
995489, whether the clock reads earlier than the target (999000), the target
itself, or three ideal intervals past it (1278637). The old timestamp plus one
ideal interval is 1092879: the interval added is the wrapped `wait_in_theory`,
`-4511`, not the ideal 92879. -/
theorem adjust_latency_retreats_at_4096 :
    (fluid_opensles_adjust_latency 999000 (large_dev 1000000)).1.next_expected_enqueue_time
      = 995489 ∧
    (fluid_opensles_adjust_latency 1000000 (large_dev 1000000)).1.next_expected_enqueue_time
      = 995489 ∧
    (fluid_opensles_adjust_latency 1278637 (large_dev 1000000)).1.next_expected_enqueue_time
      = 995489 ∧
    (1000000 : Int) + 3 * ideal_interval 4096 44100 = 1278637 ∧
    (1000000 : Int) + ideal_interval 4096 44100 = 1092879 := by
  decide

/-- A call sleeps exactly when a prior next-expected timestamp exists and
`delta = next_expected - now` is positive, and then, as long as `delta` is below
`2^32`, for `delta` microseconds, `delta` taken from the timestamp before it is
advanced. -/
theorem adjust_latency_sleeps_iff_ahead {F : Type} (now : Int)
    (dev : fluid_opensles_audio_driver_t F)
    (hrange : inLong (dev.next_expected_enqueue_time - now))
    (hfits : dev.next_expected_enqueue_time - now < 4294967296) :
    (fluid_opensles_adjust_latency now dev).2
      = if dev.next_expected_enqueue_time ≠ 0
            ∧ 0 < dev.next_expected_enqueue_time - now
        then [Event.usleep (dev.next_expected_enqueue_time - now)] else [] := by
  unfold fluid_opensles_adjust_latency
  by_cases h0 : dev.next_expected_enqueue_time = 0
  · simp [h0]
  · simp only [h0, if_false, wrapLong_of_inLong hrange, ne_eq, not_false_eq_true, true_and]
    split
    · rename_i hpos
      have : toUseconds (dev.next_expected_enqueue_time - now)
          = dev.next_expected_enqueue_time - now := by
        unfold toUseconds USECONDS_MOD
        omega
      rw [this]
    · rfl

/-- C4, evaluated where it fails: the loop is `2^32 + 5` microseconds ahead
(next-expected 4295967301, clock 1000000, as after the wall clock was set back
by some 71.6 minutes). The `long` `time_delta` is 4294967301, but `usleep` takes
a 32-bit `useconds_t`: the call sleeps 5 microseconds. One microsecond below
`2^32` the sleep is still the whole `delta`. -/
theorem adjust_latency_sleep_truncated_beyond_32_bits :
    (4295967301 : Int) - 1000000 = 4294967301 ∧
    (fluid_opensles_adjust_latency (F := Nat) 1000000
        { next_expected_enqueue_time := 4295967301, buffer_size := 512,
          sample_rate := 44100 }).2
      = [Event.usleep 5] ∧
    (fluid_opensles_adjust_latency (F := Nat) 1000000
        { next_expected_enqueue_time := 4295967295, buffer_size := 512,
          sample_rate := 44100 }).2
      = [Event.usleep 4294967295] :=
  ⟨by decide, rfl, rfl⟩

/-! ## Pull loop: what one iteration and the loop do -/

@[simp]
theorem adjust_latency_is_sample_format_float {F : Type} (now : Int)
    (dev : fluid_opensles_audio_driver_t F) :
    (fluid_opensles_adjust_latency now dev).1.is_sample_format_float
      = dev.is_sample_format_float := by
  rw [adjust_latency_frame]

@[simp]
theorem adjust_latency_buffer_size {F : Type} (now : Int)
    (dev : fluid_opensles_audio_driver_t F) :
    (fluid_opensles_adjust_latency now dev).1.buffer_size = dev.buffer_size := by
  rw [adjust_latency_frame]

@[simp]
theorem adjust_latency_sample_rate {F : Type} (now : Int)
    (dev : fluid_opensles_audio_driver_t F) :
    (fluid_opensles_adjust_latency now dev).1.sample_rate = dev.sample_rate := by
  rw [adjust_latency_frame]

@[simp]
theorem adjust_latency_cont {F : Type} (now : Int)
    (dev : fluid_opensles_audio_driver_t F) :
    (fluid_opensles_adjust_latency now dev).1.cont = dev.cont := by
  rw [adjust_latency_frame]

/-- The trace of a call holds at most a sleep: no submission, no producer. -/
theorem adjust_latency_trace_counts {F : Type} (now : Int)
    (dev : fluid_opensles_audio_driver_t F) :
    (fluid_opensles_adjust_latency now dev).2.countP Event.isEnqueue = 0 ∧
    (fluid_opensles_adjust_latency now dev).2.countP Event.isProduce = 0 := by
  unfold fluid_opensles_adjust_latency
  simp only
  split_ifs <;> simp [Event.isEnqueue, Event.isProduce]

/-- An iteration on a state whose block exists: the pacing call, then one
producer call, then one submission; the block still exists afterwards. -/
theorem audio_run_iteration_spec {F : Type} (env : RunEnv F) (i : Nat)
    (s : RunState F) (hb : s.buffers_ok) :
    ∃ s1 e1 e2,
      audio_run_iteration env i s
        = some (s1, (fluid_opensles_adjust_latency (env.clock i) s.dev).2 ++ [e1, e2]) ∧
      s1.dev = (fluid_opensles_adjust_latency (env.clock i) s.dev).1 ∧
      s1.buffers_ok ∧ e1.isProduce = true ∧ e1.isEnqueue = false ∧
      e1.isSleep = false ∧ e2.isEnqueue = true ∧ e2.isProduce = false ∧
      e2.isSleep = false := by
  obtain ⟨hbf, hbs⟩ := hb
  by_cases hf : s.dev.is_sample_format_float = 0
  · obtain ⟨out, hout⟩ := Option.isSome_iff_exists.mp (hbs hf)
    refine ⟨{ s with
                dev := (fluid_opensles_adjust_latency (env.clock i) s.dev).1
                short_buf := some (env.synth.fluid_synth_write_s16
                  (fluid_opensles_adjust_latency (env.clock i) s.dev).1.data
                  s.dev.buffer_size out) },
            Event.synth_write_s16 s.dev.buffer_size,
            Event.enqueue_short (some (env.synth.fluid_synth_write_s16
                  (fluid_opensles_adjust_latency (env.clock i) s.dev).1.data
                  s.dev.buffer_size out)) (enqueue_bytes s.dev.buffer_size 2), ?_, ?_⟩
    · unfold audio_run_iteration
      simp [hf, hout]
    · simp [RunState.buffers_ok, hf, Event.isProduce, Event.isEnqueue, Event.isSleep]
  · obtain ⟨out, hout⟩ := Option.isSome_iff_exists.mp (hbf hf)
    refine ⟨{ s with
                dev := (fluid_opensles_adjust_latency (env.clock i) s.dev).1
                float_buf := some (env.synth.fluid_synth_write_float
                  (fluid_opensles_adjust_latency (env.clock i) s.dev).1.data
                  s.dev.buffer_size out) },
            Event.synth_write_float s.dev.buffer_size,
            Event.enqueue_float (some (env.synth.fluid_synth_write_float
                  (fluid_opensles_adjust_latency (env.clock i) s.dev).1.data
                  s.dev.buffer_size out)) (enqueue_bytes s.dev.buffer_size 4), ?_, ?_⟩
    · unfold audio_run_iteration
      simp [hf, hout]
    · simp [RunState.buffers_ok, hf, Event.isProduce, Event.isEnqueue, Event.isSleep]

/-- The result of `Enqueue` has no influence on an iteration. -/
theorem audio_run_iteration_enqueue_irrelevant {F : Type} (env : RunEnv F)
    (q : Nat → Nat) (i : Nat) (s : RunState F) :
    audio_run_iteration { env with Enqueue := q } i s = audio_run_iteration env i s := by
  unfold audio_run_iteration
  simp only [ite_self]

/-- The results of `Enqueue` have no influence on the loop. -/
theorem audio_run_loop_enqueue_irrelevant {F : Type} (env : RunEnv F)
    (q : Nat → Nat) :
    ∀ (fuel i : Nat) (s : RunState F),
      audio_run_loop { env with Enqueue := q } fuel i s = audio_run_loop env fuel i s := by
  intro fuel
  induction fuel with
  | zero => intro i s; rfl
  | succ fuel ih =>
    intro i s
    unfold audio_run_loop
    simp only [audio_run_iteration_enqueue_irrelevant, ih]

/-- With the flag set at `k` loop heads and cleared by the next, the loop
returns after `k` iterations, having made `k` producer calls and `k`
submissions. -/
theorem audio_run_loop_attempts {F : Type} (env : RunEnv F) :
    ∀ (k fuel i : Nat) (s : RunState F), k + 1 ≤ fuel → s.buffers_ok →
      s.dev.cont ≠ 0 →
      (∀ j, i ≤ j → j < i + k → env.stop_at j = false) →
      env.stop_at (i + k) = true →
      ∃ s1 tr, audio_run_loop env fuel i s = some (s1, tr) ∧
        tr.countP Event.isEnqueue = k ∧ tr.countP Event.isProduce = k := by
  intro k
  induction k with
  | zero =>
    intro fuel i s hfuel _ _ _ hstop
    obtain ⟨fuel, rfl⟩ : ∃ f, fuel = f + 1 := ⟨fuel - 1, by omega⟩
    simp only [Nat.add_zero] at hstop
    refine ⟨{ s with dev := { s.dev with cont := 0 } }, [], ?_, rfl, rfl⟩
    unfold audio_run_loop
    simp [hstop]
  | succ k ih =>
    intro fuel i s hfuel hb hcont hrun hstop
    obtain ⟨fuel, rfl⟩ : ∃ f, fuel = f + 1 := ⟨fuel - 1, by omega⟩
    obtain ⟨s1, e1, e2, hit, hdev, hb1, hp1, hq1, _, hq2, hp2, _⟩ :=
      audio_run_iteration_spec env i s hb
    have hcont1 : s1.dev.cont ≠ 0 := by rw [hdev]; simpa using hcont
    obtain ⟨s2, tr2, hloop, hc1, hc2⟩ :=
      ih fuel (i + 1) s1 (by omega) hb1 hcont1
        (fun j h1 h2 => hrun j (by omega) (by omega))
        (by rw [show i + 1 + k = i + (k + 1) by omega]; exact hstop)
    refine ⟨s2, ((fluid_opensles_adjust_latency (env.clock i) s.dev).2 ++ [e1, e2]) ++ tr2,
      ?_, ?_, ?_⟩
    · rw [audio_run_loop]
      simp only [hrun i (Nat.le_refl i) (by omega), Bool.false_eq_true, if_false,
        hcont, ne_eq, not_false_eq_true, if_true, hit, hloop]
    · have := (adjust_latency_trace_counts (env.clock i) s.dev).1
      simp [List.countP_append, List.countP_cons, this, hq1, hq2, hc1]
    · have := (adjust_latency_trace_counts (env.clock i) s.dev).2
      simp [List.countP_append, List.countP_cons, this, hp1, hp2, hc2]

/-! ## Pacing under a clock in step with the schedule -/

/-- A call made exactly on schedule, or with no schedule yet: no sleep, and
the next target is the clock reading plus one interval. -/
theorem adjust_latency_on_schedule {F : Type} (now : Int)
    (dev : fluid_opensles_audio_driver_t F)
    (hsched : dev.next_expected_enqueue_time = 0 ∨ dev.next_expected_enqueue_time = now)
    (hrange : inLong (now + wait_in_theory dev.buffer_size dev.sample_rate)) :
    (fluid_opensles_adjust_latency now dev).1.next_expected_enqueue_time
        = now + wait_in_theory dev.buffer_size dev.sample_rate ∧
    (fluid_opensles_adjust_latency now dev).2 = [] := by
  have hdelta : (if dev.next_expected_enqueue_time = 0 then (0 : Int)
      else wrapLong (dev.next_expected_enqueue_time - now)) = 0 := by
    rcases hsched with h | h
    · simp [h]
    · split
      · rfl
      · rw [h]; simp [wrapLong, LONG_MOD]
  unfold fluid_opensles_adjust_latency
  simp only [hdelta, if_true, gt_iff_lt, lt_self_iff_false, if_false, and_true]
  exact wrapLong_of_inLong hrange

/-- The loop under a clock that reads `t0 + i * w` at iteration `i`, entered
at iteration `i` on schedule: it never sleeps, and after `k` iterations the
target is `t0 + (i + k) * w`. -/
theorem audio_run_loop_paced {F : Type} (env : RunEnv F) (t0 w : Int) (N : Nat)
    (hclock : ∀ i, env.clock i = t0 + (i : Int) * w)
    (hrange : ∀ j : Nat, 1 ≤ j → j ≤ N → inLong (t0 + (j : Int) * w)) :
    ∀ (k fuel i : Nat) (s : RunState F), k + 1 ≤ fuel → i + k ≤ N → s.buffers_ok →
      s.dev.cont ≠ 0 →
      wait_in_theory s.dev.buffer_size s.dev.sample_rate = w →
      (s.dev.next_expected_enqueue_time = 0
        ∨ s.dev.next_expected_enqueue_time = t0 + (i : Int) * w) →
      (∀ j, i ≤ j → j < i + k → env.stop_at j = false) →
      env.stop_at (i + k) = true →
      ∃ s1 tr, audio_run_loop env fuel i s = some (s1, tr) ∧
        (k = 0 → s1.dev.next_expected_enqueue_time = s.dev.next_expected_enqueue_time) ∧
        (1 ≤ k → s1.dev.next_expected_enqueue_time = t0 + ((i + k : Nat) : Int) * w) ∧
        (∀ e ∈ tr, Event.isSleep e = false) := by
  intro k
  induction k with
  | zero =>
    intro fuel i s hfuel _ _ _ _ _ _ hstop
    obtain ⟨fuel, rfl⟩ : ∃ f, fuel = f + 1 := ⟨fuel - 1, by omega⟩
    simp only [Nat.add_zero] at hstop
    refine ⟨{ s with dev := { s.dev with cont := 0 } }, [], ?_, ?_, ?_, ?_⟩
    · unfold audio_run_loop
      simp [hstop]
    · intro _; rfl
    · intro h; omega
    · intro e he; cases he
  | succ k ih =>
    intro fuel i s hfuel hN hb hcont hw hsched hrun hstop
    obtain ⟨fuel, rfl⟩ : ∃ f, fuel = f + 1 := ⟨fuel - 1, by omega⟩
    obtain ⟨s1, e1, e2, hit, hdev, hb1, _, _, hs1, _, _, hs2⟩ :=
      audio_run_iteration_spec env i s hb
    have hstep : t0 + (i : Int) * w + w = t0 + ((i + 1 : Nat) : Int) * w := by
      push_cast; ring
    rw [hclock i] at hit hdev
    have hpace := adjust_latency_on_schedule (t0 + (i : Int) * w) s.dev hsched
      (by rw [hw, hstep]; exact hrange (i + 1) (by omega) (by omega))
    rw [hw, hstep] at hpace
    obtain ⟨hnext, hquiet⟩ := hpace
    have hcont1 : s1.dev.cont ≠ 0 := by rw [hdev]; simpa using hcont
    have hw1 : wait_in_theory s1.dev.buffer_size s1.dev.sample_rate = w := by
      rw [hdev]; simpa using hw
    have hnext1 : s1.dev.next_expected_enqueue_time = t0 + ((i + 1 : Nat) : Int) * w := by
      rw [hdev]; exact hnext
    obtain ⟨s2, tr2, hloop, hk0, hk1, hq⟩ :=
      ih fuel (i + 1) s1 (by omega) (by omega) hb1 hcont1 hw1 (Or.inr hnext1)
        (fun j h1 h2 => hrun j (by omega) (by omega))
        (by rw [show i + 1 + k = i + (k + 1) by omega]; exact hstop)
    refine ⟨s2, ((fluid_opensles_adjust_latency (t0 + (i : Int) * w) s.dev).2 ++ [e1, e2]) ++ tr2,
      ?_, ?_, ?_, ?_⟩
    · rw [audio_run_loop]
      simp only [hrun i (Nat.le_refl i) (by omega), Bool.false_eq_true, if_false,
        hcont, ne_eq, not_false_eq_true, if_true, hit, hloop]
    · intro h; omega
    · intro _
      rcases Nat.eq_zero_or_pos k with h | h
      · rw [hk0 h, hnext1, h]
      · rw [hk1 h, show i + 1 + k = i + (k + 1) by omega]
    · intro e he
      rw [hquiet] at he
      simp only [List.nil_append, List.mem_append, List.mem_cons, List.mem_singleton,
        List.not_mem_nil, or_false] at he
      rcases he with (rfl | rfl) | he
      · exact hs1
      · exact hs2
      · exact hq e he

/-- From an unestablished pacing state, under a clock that reads `t0 > 0` at
the first call and advances per call by exactly the interval the source
computes, `wait_in_theory`, taken nonnegative, the loop run for `n >= 1`
iterations (flag cleared at the next loop head) returns with no sleep in its
trace and the target at `t0 + n * wait_in_theory` (the timestamps being
representable as `long`). Up to 2147 frames that interval is the ideal one. -/
theorem pull_loop_pacing_idempotent {F : Type} (env : RunEnv F) (s : RunState F)
    (t0 : Int) (n : Nat) (hn : 1 ≤ n)
    (h0 : s.dev.next_expected_enqueue_time = 0)
    (hw : 0 ≤ wait_in_theory s.dev.buffer_size s.dev.sample_rate)
    (ht0 : 0 < t0)
    (hclock : ∀ i, env.clock i
      = t0 + (i : Int) * wait_in_theory s.dev.buffer_size s.dev.sample_rate)
    (hmax : t0 + (n : Int) * wait_in_theory s.dev.buffer_size s.dev.sample_rate
      ≤ 9223372036854775807)
    (hrun : ∀ i, i < n → env.stop_at i = false) (hstop : env.stop_at n = true)
    (hcont : s.dev.cont ≠ 0) (hb : s.buffers_ok) :
    ∃ s1 tr, audio_run_loop env (n + 1) 0 s = some (s1, tr) ∧
      s1.dev.next_expected_enqueue_time
        = t0 + (n : Int) * wait_in_theory s.dev.buffer_size s.dev.sample_rate ∧
      (∀ e ∈ tr, Event.isSleep e = false) := by
  have hrange : ∀ j : Nat, 1 ≤ j → j ≤ n →
      inLong (t0 + (j : Int) * wait_in_theory s.dev.buffer_size s.dev.sample_rate) := by
    intro j _ hj
    have h1 : (j : Int) * wait_in_theory s.dev.buffer_size s.dev.sample_rate
        ≤ (n : Int) * wait_in_theory s.dev.buffer_size s.dev.sample_rate :=
      Int.mul_le_mul_of_nonneg_right (by exact_mod_cast hj) hw
    have h2 : 0 ≤ (j : Int) * wait_in_theory s.dev.buffer_size s.dev.sample_rate :=
      Int.mul_nonneg (by exact_mod_cast Nat.zero_le j) hw
    unfold inLong
    constructor <;> omega
  obtain ⟨s1, tr, hloop, _, hk, hq⟩ :=
    audio_run_loop_paced env t0 _ n hclock hrange n (n + 1) 0 s (Nat.le_refl _)
      (by omega) hb hcont rfl (Or.inl h0)
      (fun j _ h2 => hrun j (by omega)) (by simpa using hstop)
  refine ⟨s1, tr, hloop, ?_, hq⟩
  rw [hk hn, Nat.zero_add]

/-- Below the overflow of the `int` product (1 to 2147 frames), from an
unestablished pacing state and under a clock that reads `t0 > 0` at the first
call and advances by exactly the ideal interval per call, the loop run for
`n >= 1` iterations returns with no sleep in its trace and the target at
`t0 + n * ideal_interval`. -/
theorem pull_loop_pacing_ideal_of_small {F : Type} (env : RunEnv F) (s : RunState F)
    (t0 : Int) (n : Nat) (hn : 1 ≤ n)
    (hpos : 0 < s.dev.buffer_size) (hsmall : s.dev.buffer_size ≤ 2147)
    (h0 : s.dev.next_expected_enqueue_time = 0) (ht0 : 0 < t0)
    (hclock : ∀ i, env.clock i
      = t0 + (i : Int) * ideal_interval s.dev.buffer_size s.dev.sample_rate)
    (hmax : t0 + (n : Int) * ideal_interval s.dev.buffer_size s.dev.sample_rate
      ≤ 9223372036854775807)
    (hrun : ∀ i, i < n → env.stop_at i = false) (hstop : env.stop_at n = true)
    (hcont : s.dev.cont ≠ 0) (hb : s.buffers_ok) :
    ∃ s1 tr, audio_run_loop env (n + 1) 0 s = some (s1, tr) ∧
      s1.dev.next_expected_enqueue_time
        = t0 + (n : Int) * ideal_interval s.dev.buffer_size s.dev.sample_rate ∧
      (∀ e ∈ tr, Event.isSleep e = false) := by
  have hw : 0 ≤ ideal_interval s.dev.buffer_size s.dev.sample_rate := by
    unfold ideal_interval
    exact Int.tdiv_nonneg (by omega) (by exact_mod_cast Nat.zero_le _)
  rw [← wait_in_theory_eq_ideal_of_small _ _ hpos hsmall] at hw hmax ⊢
  have hclock1 : ∀ i, env.clock i
      = t0 + (i : Int) * wait_in_theory s.dev.buffer_size s.dev.sample_rate := by
    intro i
    rw [hclock i, wait_in_theory_eq_ideal_of_small _ _ hpos hsmall]
  exact pull_loop_pacing_idempotent env s t0 n hn h0 hw ht0 hclock1 hmax hrun hstop hcont hb

/-- C5, evaluated where it fails: a float worker of 4096 frames at 44100 Hz
starts unestablished under a clock that reads 1000000 and advances by exactly
the ideal interval 92879 per call. The loop never sleeps, but the target does
not follow `t0 + n * w`: after the first call it is 995489 (not 1092879) and
after three calls 986467 (not 1278637), because each call adds the wrapped
`wait_in_theory`, `-4511`. -/
theorem pull_loop_target_drifts_at_4096 :
    ideal_interval 4096 44100 = 92879 ∧
    (audio_run_loop (ideal_clock_env 1) (1 + 1) 0 large_state).map
        (fun x => x.1.dev.next_expected_enqueue_time) = some 995489 ∧
    (1000000 : Int) + 1 * ideal_interval 4096 44100 = 1092879 ∧
    (audio_run_loop (ideal_clock_env 3) (3 + 1) 0 large_state).map
        (fun x => x.1.dev.next_expected_enqueue_time) = some 986467 ∧
    (1000000 : Int) + 3 * ideal_interval 4096 44100 = 1278637 ∧
    (audio_run_loop (ideal_clock_env 3) (3 + 1) 0 large_state).map
        (fun x => x.2.countP Event.isSleep) = some 0 := by
  decide

/-! ## Push-mode completion handler: interleaving -/

/-- The interleaving loop entered at frame `i` with `n` frames to go, on blocks
that are long enough and with a sample count that is an `int`: it succeeds,
keeps the length of the output block, writes `left[j]`, `right[j]` at `2 * j`,
`2 * j + 1` for the frames `j` it covers and leaves every other sample as it
was. -/
theorem interleave_spec {F : Type} (left right : List F) :
    ∀ (n i : Nat) (buf : List F), i + n ≤ left.length → i + n ≤ right.length →
      2 * (i + n) ≤ buf.length → 2 * (i + n) ≤ 2147483647 →
      ∃ out, interleave left right n i (2 * i) buf = some out ∧
        out.length = buf.length ∧
        (∀ j, i ≤ j → j < i + n →
          out[2 * j]? = left[j]? ∧ out[2 * j + 1]? = right[j]?) ∧
        (∀ m, m < 2 * i ∨ 2 * (i + n) ≤ m → out[m]? = buf[m]?) := by
  intro n
  induction n with
  | zero =>
    intro i buf _ _ _ _
    exact ⟨buf, rfl, rfl, fun j h1 h2 => by omega, fun _ _ => rfl⟩
  | succ n ih =>
    intro i buf hl hr hb hmax
    have hil : i < left.length := by omega
    have hir : i < right.length := by omega
    have hli : left[i]? = some left[i] := List.getElem?_eq_getElem hil
    have hri : right[i]? = some right[i] := List.getElem?_eq_getElem hir
    obtain ⟨out, hout, hlen, hcov, hrest⟩ :=
      ih (i + 1) ((buf.set (2 * i) left[i]).set (2 * i + 1) right[i])
        (by omega) (by omega) (by simp only [List.length_set]; omega) (by omega)
    refine ⟨out, ?_, ?_, ?_, ?_⟩
    · rw [interleave, hli, hri]
      simp only
      rw [if_pos ⟨by omega, by omega⟩]
      exact hout
    · simpa using hlen
    · intro j h1 h2
      rcases Nat.eq_or_lt_of_le h1 with h | h
      · subst h
        rw [hrest (2 * i) (Or.inl (by omega)), hrest (2 * i + 1) (Or.inl (by omega)),
          hli, hri]
        constructor
        · rw [List.getElem?_set_ne (by omega), List.getElem?_set]
          simp only [if_true]
          rw [if_pos (by omega)]
        · rw [List.getElem?_set]
          simp only [if_true, List.length_set]
          rw [if_pos (by omega)]
      · exact hcov j (by omega) (by omega)
    · intro m hm
      rw [hrest m (by omega), List.getElem?_set_ne (by omega), List.getElem?_set_ne (by omega)]

/-- C1: in the handler with a split producer and float format, for every
frame count `n` (with `2 * n` samples an `int` count, and an output block of at
least that many samples, as the constructor allocates it), the output block
afterwards holds
`left[i]` at `2 * i` and `right[i]` at `2 * i + 1` for every frame `i`, `left`
and `right` being the scratch blocks as the producer left them; it is this
block that is submitted. -/
theorem callback_interleaves_split_float {F : Type} (synth : Synth F) (result : Nat)
    (dev : fluid_opensles_audio_driver_t F) (cb : fluid_audio_func_t F)
    (left0 right0 out : List F) (n : Nat)
    (hcb : dev.callback = some cb) (hfmt : dev.is_sample_format_float ≠ 0)
    (hn : dev.buffer_size = (n : Int))
    (hl : dev.float_callback_buffer_l = some left0)
    (hr : dev.float_callback_buffer_r = some right0)
    (ho : dev.float_buffer = some out)
    (hll : (cb dev.data n left0 right0).1.length = n)
    (hrl : (cb dev.data n left0 right0).2.length = n)
    (hol : 2 * n ≤ out.length) (hmax : 2 * n ≤ 2147483647) :
    ∃ dev1 out1,
      fluid_opensles_callback synth result dev
        = some (dev1, [Event.callback n, Event.enqueue_float (some out1) (enqueue_bytes n 4)]) ∧
      dev1.float_buffer = some out1 ∧ out1.length = out.length ∧
      ∀ i, i < n →
        out1[2 * i]? = (cb dev.data n left0 right0).1[i]? ∧
        out1[2 * i + 1]? = (cb dev.data n left0 right0).2[i]? ∧
        ((cb dev.data n left0 right0).1[i]?).isSome = true ∧
        ((cb dev.data n left0 right0).2[i]?).isSome = true := by
  obtain ⟨out1, hout, hlen, hcov, _⟩ :=
    interleave_spec (cb dev.data n left0 right0).1 (cb dev.data n left0 right0).2 n 0 out
      (by omega) (by omega) (by omega) (by omega)
  refine ⟨{ dev with
              float_callback_buffer_l := some (cb dev.data n left0 right0).1
              float_callback_buffer_r := some (cb dev.data n left0 right0).2
              float_buffer := some out1 }, out1, ?_, rfl, hlen, ?_⟩
  · simp only [Nat.mul_zero] at hout
    unfold fluid_opensles_callback callback_produce
    simp [hcb, hfmt, hn, hl, hr, ho, hout]
  · intro i hi
    obtain ⟨h1, h2⟩ := hcov i (Nat.zero_le i) (by omega)
    refine ⟨h1, h2, ?_, ?_⟩
    · rw [List.getElem?_eq_getElem (by omega)]; rfl
    · rw [List.getElem?_eq_getElem (by omega)]; rfl

/-- C1 on a driver of 3 frames whose producer leaves `[1, 2, 3]` and
`[4, 5, 6]`. -/
theorem callback_interleaves_split_float_witness :
    ∃ dev1 out1,
      fluid_opensles_callback idle_synth 0 split_float_dev
        = some (dev1, [Event.callback 3, Event.enqueue_float (some out1) (enqueue_bytes 3 4)]) ∧
      dev1.float_buffer = some out1 ∧ out1.length = 6 ∧
      ∀ i, i < 3 →
        out1[2 * i]? = [1, 2, 3][i]? ∧ out1[2 * i + 1]? = [4, 5, 6][i]? ∧
        ([1, 2, 3][i]?).isSome = true ∧ ([4, 5, 6][i]?).isSome = true :=
  callback_interleaves_split_float idle_synth 0 split_float_dev ramp_producer
    [0, 0, 0] [0, 0, 0] [0, 0, 0, 0, 0, 0] 3 rfl (by decide) rfl rfl rfl rfl rfl rfl
    (by decide) (by decide)

/-! ## Push-mode completion handler: unsupported configuration, submission -/

/-- The production step of the handler never submits; it invokes one producer,
except with a split producer and int16 format, where it invokes none; and it
leaves format, frame count, running flag and pacing state alone. -/
theorem callback_produce_spec {F : Type} (synth : Synth F)
    (dev dev1 : fluid_opensles_audio_driver_t F) (pre : List (Event F))
    (h : callback_produce synth dev = some (dev1, pre)) :
    pre.countP Event.isEnqueue = 0 ∧
    pre.countP Event.isProduce
      = (if dev.callback.isSome = true ∧ dev.is_sample_format_float = 0 then 0 else 1) ∧
    dev1.is_sample_format_float = dev.is_sample_format_float ∧
    dev1.buffer_size = dev.buffer_size ∧ dev1.cont = dev.cont ∧
    dev1.next_expected_enqueue_time = dev.next_expected_enqueue_time := by
  unfold callback_produce at h
  simp only at h
  split at h
  · split at h
    · split at h
      · split at h
        · cases h
          simp_all [Event.isEnqueue, Event.isProduce]
        · cases h
      · cases h
    · cases h
      simp_all [Event.isEnqueue, Event.isProduce]
  · split at h
    · split at h
      · cases h
        simp_all [Event.isEnqueue, Event.isProduce]
      · cases h
    · split at h
      · cases h
        simp_all [Event.isEnqueue, Event.isProduce]
      · cases h

/-- The handler is its production step followed by one submission, whatever
`Enqueue` returns. -/
theorem callback_eq_produce_then_submit {F : Type} (synth : Synth F) (result : Nat)
    (dev : fluid_opensles_audio_driver_t F) :
    fluid_opensles_callback synth result dev
      = (callback_produce synth dev).map (fun x =>
          (x.1, x.2 ++ [if x.1.is_sample_format_float ≠ 0 then
              Event.enqueue_float x.1.float_buffer (enqueue_bytes dev.buffer_size 4)
            else Event.enqueue_short x.1.short_buffer (enqueue_bytes dev.buffer_size 2)])) := by
  unfold fluid_opensles_callback
  cases callback_produce synth dev with
  | none => rfl
  | some x => simp

/-- C8 as stated fails in the unsupported configuration: on a driver with a
split producer and int16 format an invocation of the handler returns having
made its one submission but no producer call at all. -/
theorem callback_split_int16_skips_production :
    ∃ dev1 tr, fluid_opensles_callback idle_synth 0 split_short_dev = some (dev1, tr) ∧
      tr.countP Event.isProduce = 0 ∧ tr.countP Event.isEnqueue = 1 :=
  ⟨split_short_dev, _, rfl, rfl, rfl⟩

/-- C8, amended: a submission failure is ignored and never retried.
* Handler: its outcome does not depend on the result of `Enqueue`; whenever it
  returns, its trace ends with its only submission, preceded by exactly one
  producer call, except that with a split producer and int16 format no
  producer is called; running flag and pacing state are untouched; and without
  a split producer it returns as soon as the output block of the format exists.
* Pull iteration: its outcome does not depend on the result of `Enqueue`; on a
  worker whose block exists it is the pacing call, then exactly one producer
  call, then exactly one submission, and the running flag is untouched.
* Pull loop: with the flag set at `k` loop heads and cleared by the next, it
  returns after making exactly `k` submissions and `k` producer calls, the same
  state and trace whatever the results of `Enqueue`. -/
theorem submission_failure_is_ignored {F : Type} (synth : Synth F) (env : RunEnv F) :
    (∀ (dev : fluid_opensles_audio_driver_t F) (r1 r2 : Nat),
      fluid_opensles_callback synth r1 dev = fluid_opensles_callback synth r2 dev) ∧
    (∀ (dev dev1 : fluid_opensles_audio_driver_t F) (r : Nat) (tr : List (Event F)),
      fluid_opensles_callback synth r dev = some (dev1, tr) →
      ∃ pre e, tr = pre ++ [e] ∧ e.isEnqueue = true ∧ e.isProduce = false ∧
        pre.countP Event.isEnqueue = 0 ∧
        pre.countP Event.isProduce
          = (if dev.callback.isSome = true ∧ dev.is_sample_format_float = 0 then 0 else 1) ∧
        dev1.cont = dev.cont ∧
        dev1.next_expected_enqueue_time = dev.next_expected_enqueue_time) ∧
    (∀ (dev : fluid_opensles_audio_driver_t F) (r : Nat), dev.callback = none →
      (dev.is_sample_format_float ≠ 0 → dev.float_buffer.isSome = true) →
      (dev.is_sample_format_float = 0 → dev.short_buffer.isSome = true) →
      (fluid_opensles_callback synth r dev).isSome = true) ∧
    (∀ (q : Nat → Nat) (i : Nat) (s : RunState F),
      audio_run_iteration { env with Enqueue := q } i s = audio_run_iteration env i s) ∧
    (∀ (i : Nat) (s : RunState F), s.buffers_ok →
      ∃ s1 e1 e2,
        audio_run_iteration env i s
          = some (s1, (fluid_opensles_adjust_latency (env.clock i) s.dev).2 ++ [e1, e2]) ∧
        (fluid_opensles_adjust_latency (env.clock i) s.dev).2.countP Event.isEnqueue = 0 ∧
        (fluid_opensles_adjust_latency (env.clock i) s.dev).2.countP Event.isProduce = 0 ∧
        e1.isProduce = true ∧ e1.isEnqueue = false ∧
        e2.isEnqueue = true ∧ e2.isProduce = false ∧ s1.dev.cont = s.dev.cont) ∧
    (∀ (q : Nat → Nat) (k : Nat) (s : RunState F), s.buffers_ok → s.dev.cont ≠ 0 →
      (∀ j, j < k → env.stop_at j = false) → env.stop_at k = true →
      ∃ s1 tr,
        audio_run_loop { env with Enqueue := q } (k + 1) 0 s = some (s1, tr) ∧
        audio_run_loop env (k + 1) 0 s = some (s1, tr) ∧
        tr.countP Event.isEnqueue = k ∧ tr.countP Event.isProduce = k) := by
  refine ⟨?_, ?_, ?_, ?_, ?_, ?_⟩
  · intro dev r1 r2
    rw [callback_eq_produce_then_submit, callback_eq_produce_then_submit]
  · intro dev dev1 r tr h
    rw [callback_eq_produce_then_submit] at h
    cases hp : callback_produce synth dev with
    | none => rw [hp] at h; cases h
    | some x =>
      obtain ⟨d, pre⟩ := x
      rw [hp] at h
      simp only [Option.map_some', Option.some.injEq, Prod.mk.injEq] at h
      obtain ⟨hd, htr⟩ := h
      obtain ⟨h1, h2, _, _, h5, h6⟩ := callback_produce_spec synth dev d pre hp
      subst hd
      refine ⟨pre, _, htr.symm, ?_, ?_, h1, h2, h5, h6⟩
      · split <;> rfl
      · split <;> rfl
  · intro dev r hcb hf hs
    rw [callback_eq_produce_then_submit]
    unfold callback_produce
    by_cases hfmt : dev.is_sample_format_float = 0
    · obtain ⟨out, hout⟩ := Option.isSome_iff_exists.mp (hs hfmt)
      simp [hcb, hfmt, hout]
    · obtain ⟨out, hout⟩ := Option.isSome_iff_exists.mp (hf hfmt)
      simp [hcb, hfmt, hout]
  · intro q i s
    exact audio_run_iteration_enqueue_irrelevant env q i s
  · intro i s hb
    obtain ⟨s1, e1, e2, hit, hdev, _, hp1, hq1, _, hq2, hp2, _⟩ :=
      audio_run_iteration_spec env i s hb
    have hc := adjust_latency_trace_counts (env.clock i) s.dev
    exact ⟨s1, e1, e2, hit, hc.1, hc.2, hp1, hq1, hq2, hp2, by rw [hdev]; simp⟩
  · intro q k s hb hcont hrun hstop
    obtain ⟨s1, tr, hloop, hc1, hc2⟩ :=
      audio_run_loop_attempts env k (k + 1) 0 s (Nat.le_refl _) hb hcont
        (fun j _ h2 => hrun j (by omega)) (by simpa using hstop)
    exact ⟨s1, tr, by rw [audio_run_loop_enqueue_irrelevant]; exact hloop, hloop, hc1, hc2⟩

/-- C8, amended, on a worker that runs 10 iterations: with every submission
failing, as with every other one failing, the loop returns after exactly 10
submissions. -/
theorem submission_failure_is_ignored_witness :
    ∃ s1 tr,
      audio_run_loop { steady_env 10 with Enqueue := fun _ => 1 } (10 + 1) 0 steady_state
        = some (s1, tr) ∧
      audio_run_loop (steady_env 10) (10 + 1) 0 steady_state = some (s1, tr) ∧
      tr.countP Event.isEnqueue = 10 ∧ tr.countP Event.isProduce = 10 :=
  (submission_failure_is_ignored idle_synth (steady_env 10)).2.2.2.2.2 (fun _ => 1) 10
    steady_state ⟨fun _ => rfl, fun h => absurd h (by decide)⟩ (by decide) (by decide) rfl

/-! ## Teardown -/

/-- C9: the effects of teardown on a driver are, in this order: the running
flag is cleared; the worker is joined (pull mode with a worker only); player,
output mix and engine are destroyed (each only when its handle is not `NULL`);
in callback mode the scratch blocks and the output block of the sample format
are freed (each only when not `NULL`); the driver structure is freed. So the
trace splits into a first part without any free and a second part, starting
with the block frees, without any destroy or join. Teardown of `NULL` has no
effect at all. -/
theorem teardown_order {F : Type} (dev : fluid_opensles_audio_driver_t F) :
    (∃ joins destroys frees : List (Event F),
      delete_fluid_opensles_audio_driver (some dev)
        = [Event.clear_cont] ++ joins ++ destroys ++ frees ++ [Event.free Resource.dev] ∧
      joins = (if dev.use_callback_mode = 0 ∧ dev.thread.isSome = true
                then [Event.join] else []) ∧
      destroys
        = (if dev.audio_player.isSome = true
              then [Event.destroy Resource.audio_player] else [])
          ++ (if dev.output_mix_object.isSome = true
              then [Event.destroy Resource.output_mix_object] else [])
          ++ (if dev.engine.isSome = true then [Event.destroy Resource.engine] else []) ∧
      frees
        = (if dev.use_callback_mode = 0 then []
           else if dev.is_sample_format_float ≠ 0 then
             (if dev.float_callback_buffer_l.isSome = true
                then [Event.free Resource.float_callback_buffer_l] else [])
             ++ (if dev.float_callback_buffer_r.isSome = true
                then [Event.free Resource.float_callback_buffer_r] else [])
             ++ (if dev.float_buffer.isSome = true
                then [Event.free Resource.float_buffer] else [])
           else
             (if dev.short_callback_buffer_l.isSome = true
                then [Event.free Resource.short_callback_buffer_l] else [])
             ++ (if dev.short_callback_buffer_r.isSome = true
                then [Event.free Resource.short_callback_buffer_r] else [])
             ++ (if dev.short_buffer.isSome = true
                then [Event.free Resource.short_buffer] else [])) ∧
      (∀ e ∈ [Event.clear_cont] ++ joins ++ destroys, ∀ r, e ≠ Event.free r) ∧
      (∀ e ∈ frees ++ [Event.free Resource.dev],
        (∃ r, e = Event.free r) ∧ (∀ r, e ≠ Event.destroy r) ∧ e ≠ Event.join)) ∧
    delete_fluid_opensles_audio_driver (none : Option (fluid_opensles_audio_driver_t F))
      = [] := by
  refine ⟨⟨_, _, _, ?_, rfl, rfl, rfl, ?_, ?_⟩, rfl⟩
  · unfold delete_fluid_opensles_audio_driver
    simp only [List.append_assoc, List.cons_append, List.nil_append, List.cons.injEq,
      true_and, ne_eq, ite_not]
    by_cases hm : dev.use_callback_mode = 0
    · by_cases ht : dev.thread.isSome = true <;> simp [hm, ht]
    · simp [hm]
  · intro e he r
    simp only [List.mem_append, List.mem_singleton] at he
    rcases he with (rfl | he) | he
    · simp
    · split_ifs at he <;> simp_all
    · rcases he with (he | he) | he <;> split_ifs at he <;> simp_all
  · intro e he
    simp only [List.mem_append, List.mem_singleton] at he
    rcases he with he | rfl
    · split_ifs at he <;> simp_all <;> aesop
    · simp

/-! ## Construction -/

theorem new_driver2_register_some {F : Type} (p : Platform F)
    (dev d : fluid_opensles_audio_driver_t F) (tr t : List (Event F))
    (h : new_driver2_register p dev tr = (some d, t)) : d = dev := by
  unfold new_driver2_register error_recovery at h
  simp only at h
  split_ifs at h <;> simp_all

theorem new_driver2_thread_mode_some {F : Type} (p : Platform F)
    (dev d : fluid_opensles_audio_driver_t F) (tr t : List (Event F))
    (h : new_driver2_thread_mode p dev tr = (some d, t)) :
    ∃ th, d = { dev with thread := some th } := by
  unfold new_driver2_thread_mode error_recovery at h
  simp only at h
  split_ifs at h
  · simp at h
  · split at h
    · simp at h
    · simp only [Prod.mk.injEq, Option.some.injEq] at h
      exact ⟨_, h.1.symm⟩

theorem new_driver2_callback_mode_some {F : Type} (p : Platform F)
    (dev d : fluid_opensles_audio_driver_t F) (tr t : List (Event F))
    (hcb : dev.callback = none) (hfb : dev.float_buffer = none)
    (hsb : dev.short_buffer = none)
    (h : new_driver2_callback_mode p dev tr = (some d, t)) :
    ∃ fb sb, d = { dev with float_buffer := fb, short_buffer := sb } ∧
      (dev.is_sample_format_float ≠ 0 → fb.isSome = true) ∧
      (dev.is_sample_format_float = 0 → sb.isSome = true) := by
  unfold new_driver2_callback_mode at h
  by_cases hf : dev.is_sample_format_float = 0
  · simp only [hf, ne_eq, not_true_eq_false, if_false, hfb, hcb, Option.isNone_none,
      true_and, Option.isSome_none, Bool.false_eq_true] at h
    split_ifs at h with h1
    · simp at h
    · have hd := new_driver2_register_some _ _ _ _ _ h
      refine ⟨none, p.FLUID_ARRAY_short_buffer (wrapInt (dev.buffer_size * NUM_CHANNELS)),
        ?_, fun hne => absurd hf hne, fun _ => ?_⟩
      · rw [hd]; cases dev; simp_all
      · simpa [Option.isSome_iff_ne_none] using h1
  · simp only [hf, ne_eq, not_false_eq_true, if_true, hsb, hcb, Option.isNone_none,
      and_true, Option.isSome_none, Bool.false_eq_true, if_false] at h
    split_ifs at h with h1
    · simp at h
    · have hd := new_driver2_register_some _ _ _ _ _ h
      refine ⟨p.FLUID_ARRAY_float_buffer (wrapInt (dev.buffer_size * NUM_CHANNELS)), none,
        ?_, fun _ => ?_, fun he => absurd he hf⟩
      · rw [hd]; cases dev; simp_all
      · simpa [Option.isSome_iff_ne_none] using h1

/-- What holds of a driver the constructor returns. -/
theorem new_driver2_some {F : Type} (p : Platform F) (settings : Settings)
    (func : fluid_audio_func_t F) (data : Option Handle)
    (dev : fluid_opensles_audio_driver_t F) (tr : List (Event F))
    (h : new_fluid_opensles_audio_driver2 p settings func data = (some dev, tr)) :
    dev.callback = none ∧
    dev.float_callback_buffer_l = none ∧ dev.float_callback_buffer_r = none ∧
    dev.short_callback_buffer_l = none ∧ dev.short_callback_buffer_r = none ∧
    dev.use_callback_mode = settings.use_callback_mode ∧
    dev.is_sample_format_float = settings.sample_format_is_float ∧
    dev.buffer_size = settings.period_size ∧
    (dev.use_callback_mode ≠ 0 →
      (dev.is_sample_format_float ≠ 0 → dev.float_buffer.isSome = true) ∧
      (dev.is_sample_format_float = 0 → dev.short_buffer.isSome = true)) := by
  unfold new_fluid_opensles_audio_driver2 error_recovery at h
  simp only at h
  split at h
  · simp at h
  split at h
  · simp at h
  split at h
  · simp at h
  split at h
  · simp at h
  split at h
  · simp at h
  split at h
  · simp at h
  split at h
  · simp at h
  split at h
  · simp at h
  split at h
  · simp at h
  split at h
  · simp at h
  split at h
  · obtain ⟨fb, sb, hd, h1, h2⟩ :=
      new_driver2_callback_mode_some _ _ _ _ _ rfl rfl rfl h
    subst hd
    exact ⟨rfl, rfl, rfl, rfl, rfl, rfl, rfl, rfl, fun _ => ⟨h1, h2⟩⟩
  · obtain ⟨th, hd⟩ := new_driver2_thread_mode_some _ _ _ _ _ h
    subst hd
    rename_i hmode
    exact ⟨rfl, rfl, rfl, rfl, rfl, rfl, rfl, rfl, fun hm => absurd hm hmode⟩

/-- C6, evaluated where it fails. In callback mode with float format, on a
platform where every call succeeds but the output block cannot be allocated,
the constructor returns `NULL` straight from the allocation check: the driver
structure, the engine, the output mix and the player have been acquired and
nothing is destroyed or freed. When instead `RegisterCallback` fails, the
constructor goes through `error_recovery` and teardown releases all of them. -/
theorem constructor_leaks_when_output_block_fails :
    new_fluid_opensles_audio_driver2 oom_platform push_float_settings ramp_producer (some 9)
      = (none, [Event.acquire Resource.dev, Event.acquire Resource.engine,
                Event.acquire Resource.output_mix_object,
                Event.acquire Resource.audio_player, Event.log LogMsg.out_of_memory]) ∧
    new_fluid_opensles_audio_driver2 unregistering_platform push_float_settings
        ramp_producer (some 9)
      = (none, [Event.acquire Resource.dev, Event.acquire Resource.engine,
                Event.acquire Resource.output_mix_object,
                Event.acquire Resource.audio_player, Event.acquire Resource.float_buffer,
                Event.register_callback, Event.clear_cont,
                Event.destroy Resource.audio_player,
                Event.destroy Resource.output_mix_object, Event.destroy Resource.engine,
                Event.free Resource.float_buffer, Event.free Resource.dev]) :=
  ⟨rfl, rfl⟩

/-- The handler on a driver without split producer whose output block exists:
one call of the synthesizer entry point of the format, then the submission;
the driver is again without split producer and its output block exists. -/
theorem callback_direct {F : Type} (synth : Synth F) (r : Nat)
    (dev : fluid_opensles_audio_driver_t F) (hcb : dev.callback = none)
    (hf : dev.is_sample_format_float ≠ 0 → dev.float_buffer.isSome = true)
    (hs : dev.is_sample_format_float = 0 → dev.short_buffer.isSome = true) :
    ∃ dev1 e,
      fluid_opensles_callback synth r dev
        = some (dev1, [if dev.is_sample_format_float ≠ 0
                        then Event.synth_write_float dev.buffer_size
                        else Event.synth_write_s16 dev.buffer_size, e]) ∧
      e.isEnqueue = true ∧ dev1.callback = none ∧
      dev1.is_sample_format_float = dev.is_sample_format_float ∧
      dev1.buffer_size = dev.buffer_size ∧
      (dev1.is_sample_format_float ≠ 0 → dev1.float_buffer.isSome = true) ∧
      (dev1.is_sample_format_float = 0 → dev1.short_buffer.isSome = true) := by
  by_cases hfmt : dev.is_sample_format_float = 0
  · obtain ⟨out, hout⟩ := Option.isSome_iff_exists.mp (hs hfmt)
    refine ⟨{ dev with
              short_buffer := some (synth.fluid_synth_write_s16 dev.data dev.buffer_size out) },
            Event.enqueue_short
              (some (synth.fluid_synth_write_s16 dev.data dev.buffer_size out))
              (enqueue_bytes dev.buffer_size 2), ?_, rfl, hcb, rfl, rfl, ?_, ?_⟩
    · unfold fluid_opensles_callback callback_produce
      simp [hcb, hfmt, hout]
    · intro h; exact absurd hfmt h
    · intro _; rfl
  · obtain ⟨out, hout⟩ := Option.isSome_iff_exists.mp (hf hfmt)
    refine ⟨{ dev with
              float_buffer := some (synth.fluid_synth_write_float dev.data dev.buffer_size out) },
            Event.enqueue_float
              (some (synth.fluid_synth_write_float dev.data dev.buffer_size out))
              (enqueue_bytes dev.buffer_size 4), ?_, rfl, hcb, rfl, rfl, ?_, ?_⟩
    · unfold fluid_opensles_callback callback_produce
      simp [hcb, hfmt, hout]
    · intro _; rfl
    · intro h; exact absurd h hfmt

/-- Every invocation in a chain on such a driver takes the direct branch. -/
theorem callback_chain_direct {F : Type} (synth : Synth F) :
    ∀ (results : List Nat) (dev : fluid_opensles_audio_driver_t F),
      dev.callback = none →
      (dev.is_sample_format_float ≠ 0 → dev.float_buffer.isSome = true) →
      (dev.is_sample_format_float = 0 → dev.short_buffer.isSome = true) →
      ∃ dev1 traces, callback_chain synth results dev = some (dev1, traces) ∧
        traces.length = results.length ∧
        ∀ t ∈ traces, ∃ e,
          t = [if dev.is_sample_format_float ≠ 0
                then Event.synth_write_float dev.buffer_size
                else Event.synth_write_s16 dev.buffer_size, e] ∧
          e.isEnqueue = true := by
  intro results
  induction results with
  | nil =>
    intro dev _ _ _
    exact ⟨dev, [], rfl, rfl, fun t ht => by cases ht⟩
  | cons r rs ih =>
    intro dev hcb hf hs
    obtain ⟨dev1, e, hcall, he, hcb1, hfmt1, hsize1, hf1, hs1⟩ :=
      callback_direct synth r dev hcb hf hs
    obtain ⟨dev2, ts, hchain, hlen, hts⟩ := ih dev1 hcb1 hf1 hs1
    refine ⟨dev2, [if dev.is_sample_format_float ≠ 0
                    then Event.synth_write_float dev.buffer_size
                    else Event.synth_write_s16 dev.buffer_size, e] :: ts, ?_, ?_, ?_⟩
    · rw [callback_chain, hcall]
      simp only [hchain]
    · simp [hlen]
    · intro t ht
      rcases List.mem_cons.mp ht with rfl | ht
      · exact ⟨e, rfl, he⟩
      · obtain ⟨e2, h1, h2⟩ := hts t ht
        rw [hfmt1, hsize1] at h1
        exact ⟨e2, h1, h2⟩

/-- C10: whatever the settings and the `func` argument, a driver returned by
the constructor has a `NULL` callback field and `NULL` scratch blocks; and in
callback mode, the only mode in which the handler is registered, every
invocation of the handler on it returns having called the synthesizer entry
point of the format directly and submitted once: neither the split producer is
invoked nor the int16 error logged. -/
theorem constructed_driver_never_splits {F : Type} (p : Platform F) (settings : Settings)
    (func : fluid_audio_func_t F) (data : Option Handle)
    (dev : fluid_opensles_audio_driver_t F) (tr : List (Event F))
    (h : new_fluid_opensles_audio_driver2 p settings func data = (some dev, tr)) :
    dev.callback = none ∧
    dev.float_callback_buffer_l = none ∧ dev.float_callback_buffer_r = none ∧
    dev.short_callback_buffer_l = none ∧ dev.short_callback_buffer_r = none ∧
    (dev.use_callback_mode ≠ 0 →
      ∀ (synth : Synth F) (results : List Nat),
        ∃ dev1 traces, callback_chain synth results dev = some (dev1, traces) ∧
          traces.length = results.length ∧
          ∀ t ∈ traces, ∃ e,
            t = [if dev.is_sample_format_float ≠ 0
                  then Event.synth_write_float dev.buffer_size
                  else Event.synth_write_s16 dev.buffer_size, e] ∧
            e.isEnqueue = true) := by
  obtain ⟨h1, h2, h3, h4, h5, _, _, _, hbuf⟩ := new_driver2_some p settings func data dev tr h
  refine ⟨h1, h2, h3, h4, h5, fun hmode synth results => ?_⟩
  exact callback_chain_direct synth results dev h1 (hbuf hmode).1 (hbuf hmode).2

/-- C10 on the willing platform with a split producer passed as `func`: the
driver built has no callback, and three completions in a row, the second with a
failed submission, each call `fluid_synth_write_float` directly. -/
theorem constructed_driver_never_splits_witness :
    push_float_dev.callback = none ∧
    push_float_dev.float_callback_buffer_l = none ∧
    push_float_dev.float_callback_buffer_r = none ∧
    push_float_dev.short_callback_buffer_l = none ∧
    push_float_dev.short_callback_buffer_r = none ∧
    (push_float_dev.use_callback_mode ≠ 0 →
      ∀ (synth : Synth Nat) (results : List Nat),
        ∃ dev1 traces, callback_chain synth results push_float_dev = some (dev1, traces) ∧
          traces.length = results.length ∧
          ∀ t ∈ traces, ∃ e,
            t = [if push_float_dev.is_sample_format_float ≠ 0
                  then Event.synth_write_float push_float_dev.buffer_size
                  else Event.synth_write_s16 push_float_dev.buffer_size, e] ∧
            e.isEnqueue = true) :=
  constructed_driver_never_splits willing_platform push_float_settings ramp_producer
    (some 9) push_float_dev push_float_trace rfl

end FluidOpenSLES
